import Mathlib

/-!
Shallow embedding of the CDP (Chrome DevTools Protocol) session manager of
`src/lib/cdp-client.ts` and the auto-connect policy of `src/tools/dom/index.ts`.

The transport is modelled by oracle parameters: every protocol call a method
performs is represented by an explicit `Except String r` argument carrying
either the reply `r` the remote end produced or the rejection message of the
underlying promise.  The `CDPClient` record carries, besides the
`connections` map of the source, ghost accounting of the channels opened by
`CDP({...})` calls and not yet closed (`openChannels`, `nextChannel`) and of
the batches of domain-enable calls issued (`enableBatches`); the source
performs these effects through the `chrome-remote-interface` client object.
-/

set_option autoImplicit false

/-- Errors thrown by the source: `CDPError(message, details)` (the project's
error class, called `ProtocolError` by the spec's taxonomy) and plain
`new Error(message)`. `details` models the ad-hoc details object literal. -/
inductive ThrownError where
  | cdpError (message : String) (details : List (String × String))
  | jsError (message : String)
  deriving DecidableEq

/-- Kind of a thrown error: which error class the source constructed.
A caller distinguishing failures "by kind" sees exactly this. -/
inductive ErrKind where
  | cdpKind
  | plainKind
  deriving DecidableEq

/-- Kind (error class) of a thrown error. -/
def ThrownError.kind : ThrownError → ErrKind
  | .cdpError _ _ => .cdpKind
  | .jsError _ => .plainKind

/-- Kind of the error of a failed computation, `none` on success. -/
def errKind {α : Type} : Except ThrownError α → Option ErrKind
  | .error e => some e.kind
  | .ok _ => none

/-- Values produced by `Runtime.evaluate` with `returnByValue: true`
(`result.value`); `undefined` is modelled by `Option.none` at the use site. -/
inductive JSValue where
  | num (n : Int)
  | str (s : String)
  | boolVal (b : Bool)
  | nullVal
  deriving DecidableEq

/-- One entry of the manager's `connections` map (source `CDPConnection`):
the target id, the identity of the owned channel (the
`chrome-remote-interface` client object), and the `connected` flag. -/
structure CDPConnection where
  targetId : String
  channelId : Nat
  connected : Bool
  deriving DecidableEq

/-- Lookup in an insertion-ordered string-keyed map (JS `Map.get`). -/
def mapLookup {β : Type} : List (String × β) → String → Option β
  | [], _ => none
  | (k, v) :: rest, t => if k = t then some v else mapLookup rest t

/-- Insert-or-update in an insertion-ordered string-keyed map (JS `Map.set`
and JS object property assignment: an existing key keeps its position and
gets the new value, a new key is appended). -/
def mapSet {β : Type} : List (String × β) → String → β → List (String × β)
  | [], t, v => [(t, v)]
  | (k, w) :: rest, t, v =>
      if k = t then (k, v) :: rest else (k, w) :: mapSet rest t v

/-- Removal from a string-keyed map (JS `Map.delete`). -/
def mapErase {β : Type} (m : List (String × β)) (t : String) : List (String × β) :=
  m.filter (fun p => p.1 != t)

/-- State of one `CDPClient` instance: `host`/`port` and the
`connections` map, plus ghost channel/enable accounting (see module
comment). -/
structure CDPClient where
  host : String
  port : Nat
  connections : List (String × CDPConnection)
  nextChannel : Nat
  openChannels : List Nat
  enableBatches : Nat
  deriving DecidableEq

/-- A freshly constructed client, `new CDPClient()` (defaults
`host = 'localhost'`, `port = 9222`). -/
def emptyClient : CDPClient :=
  { host := "localhost", port := 9222, connections := [], nextChannel := 0,
    openChannels := [], enableBatches := 0 }

/-- Outcome of `connect` (a `Promise<void>`): resolved, or rejected with a
thrown error. -/
inductive ConnectOutcome where
  | ok
  | err (e : ThrownError)
  deriving DecidableEq

/-- The error `connect` wraps every internal failure into:
`new CDPError("Failed to connect to target " + targetId, { originalError })`. -/
def connectFailedErr (targetId msg : String) : ThrownError :=
  .cdpError ("Failed to connect to target " ++ targetId) [("originalError", msg)]

/-- The fall-through body of `connect` past the already-connected check:
`await CDP({host, port, target})` (oracle `openErr`; on success a fresh
channel is opened), then the `Promise.all` of the four domain enables
(oracle `enableErr`), then `connections.set(targetId, {targetId, client,
connected: true})`.  Note the source has no teardown on the enable-failure
path: the freshly opened channel stays in `openChannels`. -/
def connectFresh (s : CDPClient) (targetId : String) (openErr enableErr : Option String) :
    ConnectOutcome × CDPClient :=
  match openErr with
  | some msg => (.err (connectFailedErr targetId msg), s)
  | none =>
    let ch := s.nextChannel
    let s1 : CDPClient :=
      { s with nextChannel := ch + 1, openChannels := ch :: s.openChannels,
               enableBatches := s.enableBatches + 1 }
    match enableErr with
    | some msg => (.err (connectFailedErr targetId msg), s1)
    | none =>
      (.ok, { s1 with
                connections := mapSet s1.connections targetId
                  ⟨targetId, ch, true⟩ })

/-- `CDPClient.connect(targetId)`: if the map already holds a connection
with `connected` true, return immediately; otherwise run the fresh-connect
body. -/
def CDPClient.connect (s : CDPClient) (targetId : String) (openErr enableErr : Option String) :
    ConnectOutcome × CDPClient :=
  match mapLookup s.connections targetId with
  | some c => if c.connected then (.ok, s) else connectFresh s targetId openErr enableErr
  | none => connectFresh s targetId openErr enableErr

/-- `CDPClient.disconnect(targetId)`: when a tracked connection has
`connected` true, `await client.close()` (oracle `closeOk`; errors are
swallowed, and on a throw the `connected = false` assignment is skipped),
then `connections.delete(targetId)` on both paths. -/
def CDPClient.disconnect (s : CDPClient) (targetId : String) (closeOk : Bool) : CDPClient :=
  match mapLookup s.connections targetId with
  | some c =>
      if c.connected then
        let s1 := if closeOk then { s with openChannels := s.openChannels.erase c.channelId } else s
        { s1 with connections := mapErase s1.connections targetId }
      else s
  | none => s

/-- `CDPClient.disconnectAll()`: disconnect every key of a snapshot of the
map (`Array.from(this.connections.keys())`); the per-target close oracle is
`closeOk`. -/
def CDPClient.disconnectAll (s : CDPClient) (closeOk : String → Bool) : CDPClient :=
  (s.connections.map Prod.fst).foldl (fun st t => CDPClient.disconnect st t (closeOk t)) s

/-- The error of `getConnection` for an absent or non-connected target. -/
def notConnectedErr (targetId : String) : ThrownError :=
  .cdpError ("Not connected to target " ++ targetId ++ ". Call connect() first.") []

/-- `CDPClient.getConnection(targetId)` (private): the tracked connection,
or a thrown `CDPError` when absent or not `connected`. -/
def CDPClient.getConnection (s : CDPClient) (targetId : String) :
    Except ThrownError CDPConnection :=
  match mapLookup s.connections targetId with
  | some c => if c.connected then .ok c else .error (notConnectedErr targetId)
  | none => .error (notConnectedErr targetId)

/-- `CDPClient.isConnected(targetId)`: `connection?.connected || false`. -/
def CDPClient.isConnected (s : CDPClient) (targetId : String) : Bool :=
  match mapLookup s.connections targetId with
  | some c => c.connected
  | none => false

/-- `CDPClient.getActiveConnections()`: keys of the entries whose
`connected` flag is set. -/
def CDPClient.getActiveConnections (s : CDPClient) : List String :=
  (s.connections.filter (fun p => p.2.connected)).map Prod.fst

/-- A DOM node as returned by `DOM.getDocument` (fields the source types
declare and the claims touch). -/
inductive DOMNode where
  | node (nodeId : Nat) (nodeType : Nat) (nodeName : String) (children : List DOMNode)

/-- `CDPClient.getDocument(targetId)`: `getConnection`, then
`DOM.getDocument({depth: -1})` (oracle `reply`), returning the root; a
rejected protocol call is wrapped in a `CDPError`. -/
def CDPClient.getDocument (s : CDPClient) (targetId : String)
    (reply : Except String DOMNode) : Except ThrownError DOMNode :=
  match s.getConnection targetId with
  | .error e => .error e
  | .ok _ =>
    match reply with
    | .ok root => .ok root
    | .error msg =>
        .error (.cdpError ("Failed to get document for target " ++ targetId)
          [("originalError", msg)])

/-- `CDPClient.querySelector(targetId, selector)`: `getConnection`, fetch
the document root (oracle `docReply`), issue `DOM.querySelector` (oracle
`qsReply` giving the protocol's `nodeId`, `0` when nothing matched), and
return `nodeId || null`. -/
def CDPClient.querySelector (s : CDPClient) (targetId selector : String)
    (docReply : Except String DOMNode) (qsReply : Except String Nat) :
    Except ThrownError (Option Nat) :=
  match s.getConnection targetId with
  | .error e => .error e
  | .ok _ =>
    match docReply with
    | .error msg =>
        .error (.cdpError ("Failed to query selector \"" ++ selector ++ "\"")
          [("originalError", msg)])
    | .ok _root =>
      match qsReply with
      | .error msg =>
          .error (.cdpError ("Failed to query selector \"" ++ selector ++ "\"")
            [("originalError", msg)])
      | .ok nodeId => .ok (if nodeId = 0 then none else some nodeId)

/-- `CDPClient.querySelectorAll(targetId, selector)`: like `querySelector`
but `DOM.querySelectorAll` (oracle `qsaReply` giving the optional `nodeIds`
array) and `nodeIds || []`. -/
def CDPClient.querySelectorAll (s : CDPClient) (targetId selector : String)
    (docReply : Except String DOMNode) (qsaReply : Except String (Option (List Nat))) :
    Except ThrownError (List Nat) :=
  match s.getConnection targetId with
  | .error e => .error e
  | .ok _ =>
    match docReply with
    | .error msg =>
        .error (.cdpError ("Failed to query selector all \"" ++ selector ++ "\"")
          [("originalError", msg)])
    | .ok _root =>
      match qsaReply with
      | .error msg =>
          .error (.cdpError ("Failed to query selector all \"" ++ selector ++ "\"")
            [("originalError", msg)])
      | .ok nodeIds => .ok (nodeIds.getD [])

/-- The loop of `getNodeAttributes`: `for (i = 0; i < len; i += 2)
result[a[i]] = a[i+1]` over the flat payload, where an out-of-range
`a[i+1]` is JS `undefined` (modelled `Option.none`). -/
def assignPairs (acc : List (String × Option String)) : List String → List (String × Option String)
  | [] => acc
  | [nm] => mapSet acc nm none
  | nm :: v :: rest => assignPairs (mapSet acc nm (some v)) rest

/-- The mapping `getNodeAttributes` builds from the raw flat payload. -/
def decodeAttributes (attrs : List String) : List (String × Option String) :=
  assignPairs [] attrs

/-- `CDPClient.getNodeAttributes(targetId, nodeId)`: `getConnection`, then
`DOM.getAttributes({nodeId})` (oracle `reply` giving the flat
name/value-alternating array), decoded by the pairwise loop. -/
def CDPClient.getNodeAttributes (s : CDPClient) (targetId : String) (nodeId : Nat)
    (reply : Except String (List String)) :
    Except ThrownError (List (String × Option String)) :=
  match s.getConnection targetId with
  | .error e => .error e
  | .ok _ =>
    match reply with
    | .error msg =>
        .error (.cdpError ("Failed to get attributes for node " ++ toString nodeId)
          [("originalError", msg)])
    | .ok attrs => .ok (decodeAttributes attrs)

/-- `CDPClient.getOuterHTML(targetId, nodeId)`. -/
def CDPClient.getOuterHTML (s : CDPClient) (targetId : String) (nodeId : Nat)
    (reply : Except String String) : Except ThrownError String :=
  match s.getConnection targetId with
  | .error e => .error e
  | .ok _ =>
    match reply with
    | .ok html => .ok html
    | .error msg =>
        .error (.cdpError ("Failed to get outer HTML for node " ++ toString nodeId)
          [("originalError", msg)])

/-- Reply of `Runtime.evaluate`: `result.value` and the optional
`exceptionDetails` whose optional `text` field feeds
`exceptionDetails.text || "JavaScript execution failed"`. -/
structure EvalReply where
  value : Option JSValue
  exceptionDetails : Option (Option String)
  deriving DecidableEq

/-- Message of the `Error` thrown when `exceptionDetails` is present:
`exceptionDetails.text || "JavaScript execution failed"` (JS: an absent or
empty `text` is falsy). -/
def exceptionMessage (txtOpt : Option String) : String :=
  match txtOpt with
  | some txt => if txt = "" then "JavaScript execution failed" else txt
  | none => "JavaScript execution failed"

/-- `CDPClient.evaluate(targetId, expression)`: `getConnection`, then
`Runtime.evaluate` (oracle `reply`).  A present `exceptionDetails` makes
the source throw a plain `Error` inside its own `try`, so the `catch`
wraps it — like every transport rejection — into
`CDPError("Failed to evaluate JavaScript", { originalError, expression })`. -/
def CDPClient.evaluate (s : CDPClient) (targetId expression : String)
    (reply : Except String EvalReply) : Except ThrownError (Option JSValue) :=
  match s.getConnection targetId with
  | .error e => .error e
  | .ok _ =>
    match reply with
    | .error msg =>
        .error (.cdpError "Failed to evaluate JavaScript"
          [("originalError", msg), ("expression", expression)])
    | .ok r =>
      match r.exceptionDetails with
      | some txtOpt =>
          .error (.cdpError "Failed to evaluate JavaScript"
            [("originalError", exceptionMessage txtOpt), ("expression", expression)])
      | none => .ok r.value

/-- `CDPClient.screenshot(targetId, options)`: `getConnection`, then
`Page.captureScreenshot` (oracle `reply` giving the base64 `data`). -/
def CDPClient.screenshot (s : CDPClient) (targetId : String)
    (_format : Option String) (_quality : Option Nat)
    (reply : Except String String) : Except ThrownError String :=
  match s.getConnection targetId with
  | .error e => .error e
  | .ok _ =>
    match reply with
    | .ok data => .ok data
    | .error msg =>
        .error (.cdpError "Failed to capture screenshot" [("originalError", msg)])

/-! Concurrency model for `connect`: the method has an await point between
the already-connected check (synchronous) and the completion of
`CDP({...})` + domain enables + `connections.set` (the continuation after
the awaits; later awaits only shrink the set of adversarial schedules, so
they are collapsed into one step, which suffices to exhibit the races the
collapsed schedule set still contains).  A caller is a phase; a schedule
interleaves the steps of two callers. -/

/-- Phase of one in-flight `connect(t)` call. -/
inductive Phase where
  | start
  | requested
  | finished
  deriving DecidableEq

/-- One step of one `connect(t)` caller, both oracles succeeding:
from `start`, run the already-connected check (finish early on a hit);
from `requested`, complete the channel open, the enables and the map
insert exactly as `connectFresh` does. -/
def connStep (s : CDPClient) (targetId : String) : Phase → Phase × CDPClient
  | .start =>
    match mapLookup s.connections targetId with
    | some c => if c.connected then (.finished, s) else (.requested, s)
    | none => (.requested, s)
  | .requested => (.finished, (connectFresh s targetId none none).2)
  | .finished => (.finished, s)

/-- Joint state of two concurrent `connect(t)` callers A and B. -/
structure RaceState where
  client : CDPClient
  phA : Phase
  phB : Phase
  deriving DecidableEq

/-- Run a schedule: `true` advances caller A one step, `false` caller B. -/
def runRace (targetId : String) : List Bool → RaceState → RaceState
  | [], rs => rs
  | who :: rest, rs =>
    let rs1 :=
      if who then
        let p := connStep rs.client targetId rs.phA
        { rs with phA := p.1, client := p.2 }
      else
        let p := connStep rs.client targetId rs.phB
        { rs with phB := p.1, client := p.2 }
    runRace targetId rest rs1

/-- Both callers at the check, fresh client. -/
def raceInit : RaceState := { client := emptyClient, phA := .start, phB := .start }

/-! Auto-connect policy, from `ensureConnected` of `src/tools/dom/index.ts`. -/

/-- A discovered target as `listTargets` returns it. -/
structure Target where
  id : String
  type : String
  title : String
  url : String
  deriving DecidableEq

/-- Module-level state of the dom tool file: `cdpClient` and
`connectedTargetId`, both nullable. -/
structure ToolState where
  cdpClient : Option CDPClient
  connectedTargetId : Option String
  deriving DecidableEq

/-- The message of the error thrown when no page-kind target exists. -/
def noTargetsMessage : String :=
  "No Electron targets found. Make sure your Electron app is running with --inspect=9222 flag."

/-- The guard `connectedTargetId && cdpClient.isConnected(connectedTargetId)`
(JS truthiness: `null` and the empty string are falsy). -/
def truthyConnected (client : CDPClient) : Option String → Bool
  | some tid => if tid = "" then false else client.isConnected tid
  | none => false

/-- `ensureConnected()`: create the client if absent; return the remembered
target when still connected; otherwise `listTargets()` (oracle
`listReply`), filter to `type === 'page'`, throw a plain
`Error(noTargetsMessage)` when the filter is empty, else remember the first
page target's id and `connect` to it (oracles `openErr`, `enableErr`). -/
def ensureConnected (ts : ToolState) (listReply : Except String (List Target))
    (openErr enableErr : Option String) : Except ThrownError String × ToolState :=
  let client := ts.cdpClient.getD emptyClient
  if truthyConnected client ts.connectedTargetId then
    (.ok (ts.connectedTargetId.getD ""), { ts with cdpClient := some client })
  else
    match listReply with
    | .error msg =>
        (.error (.cdpError
            "Failed to list CDP targets. Make sure Electron is running with --inspect flag."
            [("originalError", msg), ("host", client.host), ("port", toString client.port)]),
         { ts with cdpClient := some client })
    | .ok targets =>
      match targets.filter (fun tg => tg.type == "page") with
      | [] => (.error (.jsError noTargetsMessage), { ts with cdpClient := some client })
      | first :: _ =>
        let conn := client.connect first.id openErr enableErr
        let ts1 : ToolState := { cdpClient := some conn.2, connectedTargetId := some first.id }
        match conn.1 with
        | .ok => (.ok first.id, ts1)
        | .err e => (.error e, ts1)

/-! Spec-side definitions (named from the spec's words, for refinement
comparison with the source-derived definitions above). -/

/-- Modelled from the spec: the "flat alternating-pair attribute encoding"
read as a sequence of (name, value) pairs. -/
def pairsOfFlat : List String → List (String × String)
  | nm :: v :: rest => (nm, v) :: pairsOfFlat rest
  | _ => []

/-- Modelled from the spec: "folds it pairwise into a mapping" — the
pairwise pairs folded left into a name-to-value mapping. -/
def specAttributeMapping (attrs : List String) : List (String × Option String) :=
  (pairsOfFlat attrs).foldl (fun m p => mapSet m p.1 (some p.2)) []

/-- Last element of the flat payload, stepping two-by-two like the decode
loop (equal to the plain last element). -/
def flatLast : List String → Option String
  | [] => none
  | [nm] => some nm
  | [_, v] => some v
  | _ :: _ :: rest => flatLast rest

/-- Invariant of the manager's map: every tracked entry has its
`connected` flag set. -/
abbrev ConnInv (s : CDPClient) : Prop := ∀ p ∈ s.connections, p.2.connected = true

/-- A client with one connected session for target `t1` (channel 0). -/
def sConn : CDPClient :=
  { host := "localhost", port := 9222, connections := [("t1", ⟨"t1", 0, true⟩)],
    nextChannel := 1, openChannels := [0], enableBatches := 1 }

/-- A stub document root used to instantiate oracle replies. -/
def docStub : DOMNode := .node 1 9 "#document" []

/-! Helper lemmas about the map operations and `getConnection`. -/

theorem mapLookup_mapSet_self {β : Type} (m : List (String × β)) (k : String) (v : β) :
    mapLookup (mapSet m k v) k = some v := by
  induction m with
  | nil => simp [mapSet, mapLookup]
  | cons p rest ih =>
    obtain ⟨k1, v1⟩ := p
    by_cases hk : k1 = k
    · simp [mapSet, hk, mapLookup]
    · simp [mapSet, hk, mapLookup, ih]

theorem mapLookup_mem {β : Type} (m : List (String × β)) (t : String) (v : β)
    (h : mapLookup m t = some v) : (t, v) ∈ m := by
  induction m with
  | nil => simp [mapLookup] at h
  | cons p rest ih =>
    obtain ⟨k1, v1⟩ := p
    by_cases hk : k1 = t
    · subst hk
      simp [mapLookup] at h
      subst h
      exact List.mem_cons_self _ _
    · simp [mapLookup, hk] at h
      exact List.mem_cons_of_mem _ (ih h)

theorem mem_keys_of_mapLookup {β : Type} (m : List (String × β)) (t : String) (v : β)
    (h : mapLookup m t = some v) : t ∈ m.map Prod.fst := by
  have := mapLookup_mem m t v h
  exact List.mem_map.mpr ⟨(t, v), this, rfl⟩

theorem mapLookup_isSome_of_mem_keys {β : Type} (m : List (String × β)) (t : String)
    (h : t ∈ m.map Prod.fst) : ∃ v, mapLookup m t = some v := by
  induction m with
  | nil => simp at h
  | cons p rest ih =>
    obtain ⟨k1, v1⟩ := p
    by_cases hk : k1 = t
    · exact ⟨v1, by simp [mapLookup, hk]⟩
    · have h2 : t ∈ rest.map Prod.fst := by
        simp only [List.map_cons, List.mem_cons] at h
        rcases h with h | h
        · exact absurd h.symm hk
        · exact h
      obtain ⟨v, hv⟩ := ih h2
      exact ⟨v, by simp [mapLookup, hk, hv]⟩

theorem getConnection_of_not_connected (s : CDPClient) (t : String)
    (h : s.isConnected t = false) :
    s.getConnection t = .error (notConnectedErr t) := by
  unfold CDPClient.isConnected at h
  unfold CDPClient.getConnection
  cases hm : mapLookup s.connections t with
  | none => rfl
  | some c =>
    rw [hm] at h
    have hc : c.connected = false := h
    simp [hc]

theorem getConnection_of_connected (s : CDPClient) (t : String)
    (h : s.isConnected t = true) :
    ∃ c, s.getConnection t = .ok c := by
  unfold CDPClient.isConnected at h
  unfold CDPClient.getConnection
  cases hm : mapLookup s.connections t with
  | none => rw [hm] at h; cases h
  | some c =>
    rw [hm] at h
    have hc : c.connected = true := h
    exact ⟨c, by simp [hc]⟩

theorem getNodeAttributes_of_connected (s : CDPClient) (t : String) (n : Nat)
    (attrs : List String) (h : s.isConnected t = true) :
    s.getNodeAttributes t n (.ok attrs) = .ok (decodeAttributes attrs) := by
  obtain ⟨c, hc⟩ := getConnection_of_connected s t h
  unfold CDPClient.getNodeAttributes
  rw [hc]

/-! Helper lemmas about the pairwise attribute decode. -/

theorem assignPairs_eq_foldl :
    ∀ (l : List String), l.length % 2 = 0 → ∀ acc : List (String × Option String),
      assignPairs acc l = (pairsOfFlat l).foldl (fun m p => mapSet m p.1 (some p.2)) acc
  | [], _, acc => rfl
  | [nm], h, acc => by simp at h
  | nm :: v :: rest, h, acc => by
    have h2 : rest.length % 2 = 0 := by
      have hl : (nm :: v :: rest).length = rest.length + 2 := by
        simp only [List.length_cons]
      rw [hl, Nat.add_mod_right] at h
      exact h
    simp only [assignPairs, pairsOfFlat, List.foldl]
    exact assignPairs_eq_foldl rest h2 (mapSet acc nm (some v))

theorem assignPairs_odd_last :
    ∀ (l : List String), l.length % 2 = 1 → ∀ acc : List (String × Option String),
      ∃ nmLast, flatLast l = some nmLast ∧
        mapLookup (assignPairs acc l) nmLast = some none
  | [], h, _ => by simp at h
  | [nm], _, acc => ⟨nm, rfl, by simp only [assignPairs]; exact mapLookup_mapSet_self acc nm none⟩
  | nm :: v :: rest, h, acc => by
    have h2 : rest.length % 2 = 1 := by
      have hl : (nm :: v :: rest).length = rest.length + 2 := by
        simp only [List.length_cons]
      rw [hl, Nat.add_mod_right] at h
      exact h
    obtain ⟨nmLast, hl, hm⟩ := assignPairs_odd_last rest h2 (mapSet acc nm (some v))
    refine ⟨nmLast, ?_, ?_⟩
    · cases rest with
      | nil => simp at h2
      | cons r rs => simpa [flatLast] using hl
    · simpa [assignPairs] using hm

/-! Claim theorems. -/

/-- C4 counterexample: on the odd-length payload `["id"]` with a connected
session, `getNodeAttributes` does not raise any error — it returns a
mapping binding `id` to the undefined value — so the claim that an
odd-length payload raises `ProtocolError` is false. -/
theorem getNodeAttributes_odd_payload_no_error_cex :
    sConn.getNodeAttributes "t1" 5 (.ok ["id"]) = .ok [("id", none)] := by
  rfl

/-- C4 (amended): for every connected session, an odd-length flat attribute
payload does not raise: `getNodeAttributes` returns the pairwise-built
mapping, in which the final dangling attribute name is bound to the
undefined value (`none`) — silent acceptance instead of `ProtocolError`. -/
theorem getNodeAttributes_odd_payload_dangling_name (s : CDPClient) (t : String) (n : Nat)
    (attrs : List String) (h : s.isConnected t = true) (hodd : attrs.length % 2 = 1) :
    ∃ nmLast, flatLast attrs = some nmLast ∧
      s.getNodeAttributes t n (.ok attrs) = .ok (decodeAttributes attrs) ∧
      mapLookup (decodeAttributes attrs) nmLast = some none := by
  obtain ⟨nmLast, hl, hm⟩ := assignPairs_odd_last attrs hodd []
  exact ⟨nmLast, hl, getNodeAttributes_of_connected s t n attrs h, hm⟩

/-- C4 witness: instantiates the amended theorem at the connected client
`sConn` and the odd payload `["id", "foo", "id2"]`. -/
theorem getNodeAttributes_odd_payload_dangling_name_witness :
    sConn.isConnected "t1" = true ∧ (["id", "foo", "id2"] : List String).length % 2 = 1 ∧
      ∃ nmLast, flatLast ["id", "foo", "id2"] = some nmLast ∧
        sConn.getNodeAttributes "t1" 6 (.ok ["id", "foo", "id2"]) =
          .ok (decodeAttributes ["id", "foo", "id2"]) ∧
        mapLookup (decodeAttributes ["id", "foo", "id2"]) nmLast = some none :=
  ⟨by decide, by decide,
    getNodeAttributes_odd_payload_dangling_name sConn "t1" 6 ["id", "foo", "id2"]
      (by decide) (by decide)⟩

/-- C5: for every connected session and even-length flat payload,
`getNodeAttributes` returns exactly the mapping the spec describes — the
pairwise fold of the alternating name/value sequence — and in particular
the payload `["id","foo","class","bar"]` yields the mapping
`id ↦ foo, class ↦ bar`. -/
theorem getNodeAttributes_even_payload_pairwise (s : CDPClient) (t : String) (n : Nat)
    (attrs : List String) (h : s.isConnected t = true) (heven : attrs.length % 2 = 0) :
    s.getNodeAttributes t n (.ok attrs) = .ok (specAttributeMapping attrs) ∧
    s.getNodeAttributes t n (.ok ["id", "foo", "class", "bar"]) =
      .ok [("id", some "foo"), ("class", some "bar")] := by
  constructor
  · rw [getNodeAttributes_of_connected s t n attrs h]
    unfold decodeAttributes specAttributeMapping
    rw [assignPairs_eq_foldl attrs heven]
  · rw [getNodeAttributes_of_connected s t n _ h]
    rfl

/-- C5 witness: instantiates the theorem at the connected client `sConn`
and the payload of the spec's example. -/
theorem getNodeAttributes_even_payload_pairwise_witness :
    sConn.isConnected "t1" = true ∧
      (["id", "foo", "class", "bar"] : List String).length % 2 = 0 ∧
      sConn.getNodeAttributes "t1" 3 (.ok ["id", "foo", "class", "bar"]) =
        .ok (specAttributeMapping ["id", "foo", "class", "bar"]) ∧
      sConn.getNodeAttributes "t1" 3 (.ok ["id", "foo", "class", "bar"]) =
        .ok [("id", some "foo"), ("class", some "bar")] :=
  ⟨by decide, by decide,
    (getNodeAttributes_even_payload_pairwise sConn "t1" 3 ["id", "foo", "class", "bar"]
      (by decide) (by decide)).1,
    (getNodeAttributes_even_payload_pairwise sConn "t1" 3 ["id", "foo", "class", "bar"]
      (by decide) (by decide)).2⟩

/-- C6: for every target id with no connected session, every session
operation — `getDocument`, `querySelector`, `querySelectorAll`,
`getNodeAttributes`, `getOuterHTML`, `evaluate`, `screenshot` — fails with
the `CDPError` stating the target is not connected, whatever the channel
oracle would reply (the channel is never consulted, so no channel is
opened and no implicit connect happens). -/
theorem session_ops_fail_fast_when_not_connected (s : CDPClient)
    (t sel expr fmt : String) (nodeId : Nat)
    (docReply : Except String DOMNode) (qsReply : Except String Nat)
    (qsaReply : Except String (Option (List Nat))) (attrReply : Except String (List String))
    (htmlReply : Except String String) (evalReply : Except String EvalReply)
    (shotReply : Except String String)
    (h : s.isConnected t = false) :
    s.getDocument t docReply = .error (notConnectedErr t) ∧
    s.querySelector t sel docReply qsReply = .error (notConnectedErr t) ∧
    s.querySelectorAll t sel docReply qsaReply = .error (notConnectedErr t) ∧
    s.getNodeAttributes t nodeId attrReply = .error (notConnectedErr t) ∧
    s.getOuterHTML t nodeId htmlReply = .error (notConnectedErr t) ∧
    s.evaluate t expr evalReply = .error (notConnectedErr t) ∧
    s.screenshot t (some fmt) none shotReply = .error (notConnectedErr t) := by
  have hg := getConnection_of_not_connected s t h
  refine ⟨?_, ?_, ?_, ?_, ?_, ?_, ?_⟩ <;>
    simp [CDPClient.getDocument, CDPClient.querySelector, CDPClient.querySelectorAll,
      CDPClient.getNodeAttributes, CDPClient.getOuterHTML, CDPClient.evaluate,
      CDPClient.screenshot, hg]

/-- C6 witness: instantiates the theorem at a fresh client (never
connected) for target `t9`, with concrete oracle replies. -/
theorem session_ops_fail_fast_when_not_connected_witness :
    emptyClient.isConnected "t9" = false ∧
      (emptyClient.getDocument "t9" (.ok docStub) = .error (notConnectedErr "t9") ∧
       emptyClient.querySelector "t9" "#a" (.ok docStub) (.ok 3) = .error (notConnectedErr "t9") ∧
       emptyClient.querySelectorAll "t9" "#a" (.ok docStub) (.ok (some [3])) =
         .error (notConnectedErr "t9") ∧
       emptyClient.getNodeAttributes "t9" 3 (.ok ["id", "foo"]) = .error (notConnectedErr "t9") ∧
       emptyClient.getOuterHTML "t9" 3 (.ok "<div/>") = .error (notConnectedErr "t9") ∧
       emptyClient.evaluate "t9" "1+1" (.ok ⟨some (.num 2), none⟩) =
         .error (notConnectedErr "t9") ∧
       emptyClient.screenshot "t9" (some "png") none (.ok "abc") =
         .error (notConnectedErr "t9")) :=
  ⟨by decide,
    session_ops_fail_fast_when_not_connected emptyClient "t9" "#a" "1+1" "png" 3
      (.ok docStub) (.ok 3) (.ok (some [3])) (.ok ["id", "foo"]) (.ok "<div/>")
      (.ok ⟨some (.num 2), none⟩) (.ok "abc") (by decide)⟩

/-- C7: for every connected session, a zero-match query succeeds:
`querySelector` returns the explicit absent value when the protocol
reports the null node id `0`, and `querySelectorAll` returns the empty
sequence when the protocol reports no matches; neither raises. -/
theorem zero_match_queries_succeed (s : CDPClient) (t sel : String) (root : DOMNode)
    (h : s.isConnected t = true) :
    s.querySelector t sel (.ok root) (.ok 0) = .ok none ∧
    s.querySelectorAll t sel (.ok root) (.ok (some [])) = .ok [] := by
  obtain ⟨c, hc⟩ := getConnection_of_connected s t h
  constructor
  · simp [CDPClient.querySelector, hc]
  · simp [CDPClient.querySelectorAll, hc]

/-- C7 witness: instantiates the theorem at the connected client `sConn`. -/
theorem zero_match_queries_succeed_witness :
    sConn.isConnected "t1" = true ∧
      (sConn.querySelector "t1" ".missing" (.ok docStub) (.ok 0) = .ok none ∧
       sConn.querySelectorAll "t1" ".missing" (.ok docStub) (.ok (some [])) = .ok []) :=
  ⟨by decide, zero_match_queries_succeed sConn "t1" ".missing" docStub (by decide)⟩

/-- C8: `connect` is idempotent: when the tracked connection for the
target has its `connected` flag true, a further `connect` resolves
immediately with the manager state unchanged — in particular no channel is
opened (`nextChannel`, `openChannels` unchanged) and no domain-enable
batch is issued (`enableBatches` unchanged). -/
theorem connect_idempotent_when_connected (s : CDPClient) (t : String) (c : CDPConnection)
    (openErr enableErr : Option String)
    (hc : mapLookup s.connections t = some c) (hconn : c.connected = true) :
    s.connect t openErr enableErr = (.ok, s) := by
  unfold CDPClient.connect
  rw [hc]
  simp [hconn]

/-- C8 witness: instantiates the theorem at the connected client `sConn`. -/
theorem connect_idempotent_when_connected_witness :
    mapLookup sConn.connections "t1" = some ⟨"t1", 0, true⟩ ∧
      sConn.connect "t1" none none = (.ok, sConn) :=
  ⟨by decide,
    connect_idempotent_when_connected sConn "t1" ⟨"t1", 0, true⟩ none none
      (by decide) (by decide)⟩

/-- C3 counterexample: with a connected session, an expression whose
execution raises inside the target (exception details in the reply) and a
transport failure produce errors of the SAME kind — both are the one
`CDPError` class — so the claim that the script-error kind is distinct
from the protocol-error kind, letting a caller tell them apart by kind,
is false. -/
theorem evaluate_script_and_transport_same_kind_cex :
    errKind (sConn.evaluate "t1" "null.x"
        (.ok ⟨none, some (some "TypeError: Cannot read properties of null")⟩)) =
      errKind (sConn.evaluate "t1" "1+1" (.error "WebSocket connection closed")) ∧
    errKind (sConn.evaluate "t1" "null.x"
        (.ok ⟨none, some (some "TypeError: Cannot read properties of null")⟩)) =
      some .cdpKind := by
  exact ⟨rfl, rfl⟩

/-- C3 (amended): for every connected session, a target-side exception
makes `evaluate` fail with the same `CDPError` kind used for
transport/protocol failures — message `Failed to evaluate JavaScript`,
with the target-reported exception text carried only in the
`originalError` detail — so callers cannot distinguish the two failure
axes by the error kind. -/
theorem evaluate_script_exception_same_cdp_kind (s : CDPClient) (t expr txt : String)
    (v : Option JSValue) (h : s.isConnected t = true) (ht : txt ≠ "") :
    s.evaluate t expr (.ok ⟨v, some (some txt)⟩) =
      .error (.cdpError "Failed to evaluate JavaScript"
        [("originalError", txt), ("expression", expr)]) ∧
    (∀ msg, errKind (s.evaluate t expr (.error msg)) = some .cdpKind) ∧
    errKind (s.evaluate t expr (.ok ⟨v, some (some txt)⟩)) = some .cdpKind := by
  obtain ⟨c, hc⟩ := getConnection_of_connected s t h
  refine ⟨?_, ?_, ?_⟩
  · simp [CDPClient.evaluate, hc, exceptionMessage, ht]
  · intro msg
    simp [CDPClient.evaluate, hc, errKind, ThrownError.kind]
  · simp [CDPClient.evaluate, hc, exceptionMessage, ht, errKind, ThrownError.kind]

/-- C3 witness: instantiates the amended theorem at the connected client
`sConn` and a concrete target-reported exception text. -/
theorem evaluate_script_exception_same_cdp_kind_witness :
    sConn.isConnected "t1" = true ∧ ("TypeError: x is not defined" : String) ≠ "" ∧
      (sConn.evaluate "t1" "null.x" (.ok ⟨none, some (some "TypeError: x is not defined")⟩) =
        .error (.cdpError "Failed to evaluate JavaScript"
          [("originalError", "TypeError: x is not defined"), ("expression", "null.x")]) ∧
       (∀ msg, errKind (sConn.evaluate "t1" "null.x" (.error msg)) = some .cdpKind) ∧
       errKind (sConn.evaluate "t1" "null.x"
          (.ok ⟨none, some (some "TypeError: x is not defined")⟩)) = some .cdpKind) :=
  ⟨by decide, by decide,
    evaluate_script_exception_same_cdp_kind sConn "t1" "null.x"
      "TypeError: x is not defined" none (by decide) (by decide)⟩

/-- C2 counterexample: on a fresh client, a `connect` whose channel open
succeeds and whose domain-enable batch fails raises the `CDPError`, but
the partially-open channel (channel 0) is still open when the error is
raised — `openChannels` is `[0]`, not `[]` — so the claim that the channel
is closed before the error is raised is false. -/
theorem connect_enable_failure_leaves_channel_open_cex :
    (emptyClient.connect "t1" none (some "Network.enable failed")).1 =
      .err (.cdpError "Failed to connect to target t1"
        [("originalError", "Network.enable failed")]) ∧
    (emptyClient.connect "t1" none (some "Network.enable failed")).2.openChannels = [0] ∧
    (emptyClient.connect "t1" none (some "Network.enable failed")).2.connections = [] := by
  exact ⟨rfl, rfl, rfl⟩

/-- C2 (amended): for every target with no connected session, a `connect`
whose channel open succeeds but whose domain-enable batch fails raises the
`CDPError` and adds no session to the manager's state — no half-open
session is exposed — but the partially-open channel is NOT closed: it
remains open (and untracked), a leak. -/
theorem connect_enable_failure_no_entry_channel_leaked (s : CDPClient) (t msg : String)
    (h : s.isConnected t = false) :
    (s.connect t none (some msg)).1 = .err (connectFailedErr t msg) ∧
    (s.connect t none (some msg)).2.connections = s.connections ∧
    (s.connect t none (some msg)).2.openChannels = s.nextChannel :: s.openChannels := by
  unfold CDPClient.isConnected at h
  unfold CDPClient.connect
  cases hm : mapLookup s.connections t with
  | none => exact ⟨rfl, rfl, rfl⟩
  | some c =>
    rw [hm] at h
    have hc : c.connected = false := h
    simp [hc, connectFresh]

/-- C2 witness: instantiates the amended theorem at a fresh client. -/
theorem connect_enable_failure_no_entry_channel_leaked_witness :
    emptyClient.isConnected "t1" = false ∧
      ((emptyClient.connect "t1" none (some "Page.enable failed")).1 =
        .err (connectFailedErr "t1" "Page.enable failed") ∧
       (emptyClient.connect "t1" none (some "Page.enable failed")).2.connections =
         emptyClient.connections ∧
       (emptyClient.connect "t1" none (some "Page.enable failed")).2.openChannels =
         emptyClient.nextChannel :: emptyClient.openChannels) :=
  ⟨by decide,
    connect_enable_failure_no_entry_channel_leaked emptyClient "t1" "Page.enable failed"
      (by decide)⟩

/-- Coherence of the race model with the sequential embedding: running the
two await-separated steps of one `connect(t)` caller back to back reaches
`finished` with exactly the state `connect` produces (oracles
succeeding). -/
theorem connSteps_run_eq_connect (s : CDPClient) (t : String) :
    connStep (connStep s t .start).2 t (connStep s t .start).1 =
      (.finished, (s.connect t none none).2) := by
  unfold connStep CDPClient.connect
  cases hm : mapLookup s.connections t with
  | none => simp
  | some c =>
    cases hc : c.connected <;> simp [hc]

/-- C1: on a fresh client, two concurrent `connect("t1")` calls
interleaved so that both run the already-connected check before either
registers its session (schedule A-check, B-check, A-finish, B-finish)
both complete, but TWO underlying channels are opened — the second
caller's session overwrites the first in the map (last-writer-wins) and
channel 0 is left open yet untracked — whereas a serialized schedule
(A-check, A-finish, B-check) opens exactly one.  This contradicts the
claim that a second concurrent caller awaits the in-flight attempt and
exactly one channel is opened. -/
theorem connect_concurrent_race_opens_two_channels :
    (runRace "t1" [true, false, true, false] raceInit).phA = .finished ∧
    (runRace "t1" [true, false, true, false] raceInit).phB = .finished ∧
    (runRace "t1" [true, false, true, false] raceInit).client.nextChannel = 2 ∧
    (runRace "t1" [true, false, true, false] raceInit).client.openChannels = [1, 0] ∧
    mapLookup (runRace "t1" [true, false, true, false] raceInit).client.connections "t1" =
      some ⟨"t1", 1, true⟩ ∧
    (runRace "t1" [true, true, false] raceInit).client.nextChannel = 1 := by
  refine ⟨rfl, rfl, rfl, rfl, ?_, rfl⟩
  decide

/-! Helper lemmas for the manager-state invariant and the connect
reduction cases. -/

theorem connect_connected_eq (s : CDPClient) (t : String) (c : CDPConnection)
    (oe ee : Option String) (hc : mapLookup s.connections t = some c)
    (hconn : c.connected = true) : s.connect t oe ee = (.ok, s) := by
  unfold CDPClient.connect
  rw [hc]
  simp [hconn]

theorem connect_no_entry_eq (s : CDPClient) (t : String) (oe ee : Option String)
    (h : mapLookup s.connections t = none) :
    s.connect t oe ee = connectFresh s t oe ee := by
  unfold CDPClient.connect
  rw [h]

theorem connect_stale_entry_eq (s : CDPClient) (t : String) (c : CDPConnection)
    (oe ee : Option String) (hc : mapLookup s.connections t = some c)
    (hconn : c.connected = false) :
    s.connect t oe ee = connectFresh s t oe ee := by
  unfold CDPClient.connect
  rw [hc]
  simp [hconn]

theorem connInv_mapSet (m : List (String × CDPConnection)) (k : String) (c : CDPConnection)
    (hc : c.connected = true) :
    (∀ p ∈ m, p.2.connected = true) → ∀ p ∈ mapSet m k c, p.2.connected = true := by
  induction m with
  | nil =>
    intro _ p hp
    simp [mapSet] at hp
    rw [hp]
    exact hc
  | cons q rest ih =>
    obtain ⟨k1, v1⟩ := q
    intro hm p hp
    by_cases hk : k1 = k
    · simp [mapSet, hk] at hp
      rcases hp with hp | hp
      · rw [hp]; exact hc
      · exact hm p (List.mem_cons_of_mem _ hp)
    · simp only [mapSet, if_neg hk, List.mem_cons] at hp
      rcases hp with hp | hp
      · rw [hp]; exact hm (k1, v1) (List.mem_cons_self _ _)
      · exact ih (fun q hq => hm q (List.mem_cons_of_mem _ hq)) p hp

theorem connInv_connectFresh (s : CDPClient) (t : String) (oe ee : Option String)
    (h : ConnInv s) : ConnInv (connectFresh s t oe ee).2 := by
  cases oe with
  | some msg => exact h
  | none =>
    cases ee with
    | some msg => exact h
    | none =>
      intro p hp
      exact connInv_mapSet s.connections t ⟨t, s.nextChannel, true⟩ rfl h p hp

theorem connInv_connect (s : CDPClient) (t : String) (oe ee : Option String)
    (h : ConnInv s) : ConnInv (s.connect t oe ee).2 := by
  cases hm : mapLookup s.connections t with
  | none =>
    rw [connect_no_entry_eq s t oe ee hm]
    exact connInv_connectFresh s t oe ee h
  | some c =>
    by_cases hconn : c.connected = true
    · rw [connect_connected_eq s t c oe ee hm hconn]
      exact h
    · have hcf : c.connected = false := by
        cases hcb : c.connected
        · rfl
        · exact absurd hcb hconn
      rw [connect_stale_entry_eq s t c oe ee hm hcf]
      exact connInv_connectFresh s t oe ee h

theorem connectFresh_failed_connections (s : CDPClient) (t : String) (oe ee : Option String)
    (hfail : (connectFresh s t oe ee).1 ≠ .ok) :
    (connectFresh s t oe ee).2.connections = s.connections := by
  cases oe with
  | some msg => rfl
  | none =>
    cases ee with
    | some msg => rfl
    | none => exact absurd rfl hfail

theorem connect_failed_connections (s : CDPClient) (t : String) (oe ee : Option String)
    (hfail : (s.connect t oe ee).1 ≠ .ok) :
    (s.connect t oe ee).2.connections = s.connections := by
  cases hm : mapLookup s.connections t with
  | none =>
    rw [connect_no_entry_eq s t oe ee hm] at hfail ⊢
    exact connectFresh_failed_connections s t oe ee hfail
  | some c =>
    by_cases hconn : c.connected = true
    · rw [connect_connected_eq s t c oe ee hm hconn] at hfail
      exact absurd rfl hfail
    · have hcf : c.connected = false := by
        cases hcb : c.connected
        · rfl
        · exact absurd hcb hconn
      rw [connect_stale_entry_eq s t c oe ee hm hcf] at hfail ⊢
      exact connectFresh_failed_connections s t oe ee hfail

theorem disconnect_connections (s : CDPClient) (t : String) (closeOk : Bool) :
    (s.disconnect t closeOk).connections = s.connections ∨
    (s.disconnect t closeOk).connections = mapErase s.connections t := by
  unfold CDPClient.disconnect
  cases hm : mapLookup s.connections t with
  | none => left; rfl
  | some c =>
    by_cases hconn : c.connected = true
    · right
      cases closeOk <;> simp [hconn]
    · have hcf : c.connected = false := by
        cases hcb : c.connected
        · rfl
        · exact absurd hcb hconn
      left
      simp [hcf]

theorem connInv_disconnect (s : CDPClient) (t : String) (closeOk : Bool)
    (h : ConnInv s) : ConnInv (s.disconnect t closeOk) := by
  intro p hp
  rcases disconnect_connections s t closeOk with hd | hd
  · rw [hd] at hp
    exact h p hp
  · rw [hd] at hp
    unfold mapErase at hp
    exact h p (List.mem_filter.mp hp).1

theorem connInv_disconnect_foldl :
    ∀ (keys : List String) (s : CDPClient) (f : String → Bool), ConnInv s →
      ConnInv (keys.foldl (fun st t => st.disconnect t (f t)) s)
  | [], _, _, h => h
  | k :: ks, s, f, h =>
    connInv_disconnect_foldl ks (s.disconnect k (f k)) f (connInv_disconnect s k (f k) h)

theorem connInv_disconnectAll (s : CDPClient) (f : String → Bool) (h : ConnInv s) :
    ConnInv (s.disconnectAll f) :=
  connInv_disconnect_foldl (s.connections.map Prod.fst) s f h

theorem getActiveConnections_eq_keys (s : CDPClient) (h : ConnInv s) :
    s.getActiveConnections = s.connections.map Prod.fst := by
  unfold CDPClient.getActiveConnections
  rw [List.filter_eq_self.mpr (fun p hp => h p hp)]

theorem isConnected_iff_mem_keys (s : CDPClient) (t : String) (h : ConnInv s) :
    s.isConnected t = true ↔ t ∈ s.connections.map Prod.fst := by
  constructor
  · intro hi
    unfold CDPClient.isConnected at hi
    cases hm : mapLookup s.connections t with
    | none => rw [hm] at hi; cases hi
    | some c => exact mem_keys_of_mapLookup s.connections t c hm
  · intro hk
    obtain ⟨v, hv⟩ := mapLookup_isSome_of_mem_keys s.connections t hk
    have hc : v.connected = true := h (t, v) (mapLookup_mem s.connections t v hv)
    unfold CDPClient.isConnected
    rw [hv]
    exact hc

theorem disconnect_unknown (s : CDPClient) (t : String) (closeOk : Bool)
    (h : mapLookup s.connections t = none) : s.disconnect t closeOk = s := by
  unfold CDPClient.disconnect
  rw [h]

/-- C10: invariant of the manager's state: every mutator (`connect`,
`disconnect`, `disconnectAll`) preserves "every tracked entry has its
`connected` flag true" (the read-only session operations never touch the
map); under the invariant `isConnected t` holds exactly when `t` is a key
of the map and `getActiveConnections` returns exactly the map's keys; a
failed `connect` adds no entry and `disconnect` of an unknown target id
leaves the state unchanged. -/
theorem manager_state_invariant (s : CDPClient) (t : String)
    (openErr enableErr : Option String) (closeOk : Bool) (closeAll : String → Bool)
    (hinv : ConnInv s) :
    ConnInv (s.connect t openErr enableErr).2 ∧
    ConnInv (s.disconnect t closeOk) ∧
    ConnInv (s.disconnectAll closeAll) ∧
    (s.isConnected t = true ↔ t ∈ s.connections.map Prod.fst) ∧
    s.getActiveConnections = s.connections.map Prod.fst ∧
    ((s.connect t openErr enableErr).1 ≠ .ok →
      (s.connect t openErr enableErr).2.connections = s.connections) ∧
    (mapLookup s.connections t = none → s.disconnect t closeOk = s) :=
  ⟨connInv_connect s t openErr enableErr hinv,
   connInv_disconnect s t closeOk hinv,
   connInv_disconnectAll s closeAll hinv,
   isConnected_iff_mem_keys s t hinv,
   getActiveConnections_eq_keys s hinv,
   fun hfail => connect_failed_connections s t openErr enableErr hfail,
   fun hnone => disconnect_unknown s t closeOk hnone⟩

/-- C10 witness: instantiates the invariant theorem at the one-session
client `sConn` and the unknown target `t2`, with a failing enable oracle
for the `connect` conjuncts. -/
theorem manager_state_invariant_witness :
    ConnInv sConn ∧
      (ConnInv (sConn.connect "t2" none (some "DOM.enable failed")).2 ∧
       ConnInv (sConn.disconnect "t2" true) ∧
       ConnInv (sConn.disconnectAll (fun _ => true)) ∧
       (sConn.isConnected "t2" = true ↔ "t2" ∈ sConn.connections.map Prod.fst) ∧
       sConn.getActiveConnections = sConn.connections.map Prod.fst ∧
       ((sConn.connect "t2" none (some "DOM.enable failed")).1 ≠ .ok →
         (sConn.connect "t2" none (some "DOM.enable failed")).2.connections =
           sConn.connections) ∧
       (mapLookup sConn.connections "t2" = none → sConn.disconnect "t2" true = sConn)) :=
  ⟨by decide,
    manager_state_invariant sConn "t2" none (some "DOM.enable failed") true
      (fun _ => true) (by decide)⟩

/-- C9: when no remembered target is connected, `ensureConnected` filters
the discovered targets to those of kind `page` (order preserved) and:
if the filtered sequence is empty, it raises the plain error carrying
`noTargetsMessage` (the operator-facing no-targets failure, whose text
names the `--inspect=9222` debuggable mode) without attempting any
connect — the client state is returned untouched; otherwise it remembers
the id of the FIRST filtered target, connects to exactly that target, and
on connect success returns that id. -/
theorem ensureConnected_filters_pages_picks_first (ts : ToolState)
    (targets : List Target) (openErr enableErr : Option String)
    (h : truthyConnected (ts.cdpClient.getD emptyClient) ts.connectedTargetId = false) :
    (targets.filter (fun tg => tg.type == "page") = [] →
      ensureConnected ts (.ok targets) openErr enableErr =
        (.error (.jsError noTargetsMessage),
         { ts with cdpClient := some (ts.cdpClient.getD emptyClient) })) ∧
    (∀ first rest, targets.filter (fun tg => tg.type == "page") = first :: rest →
      (ensureConnected ts (.ok targets) openErr enableErr).2.connectedTargetId =
        some first.id ∧
      (ensureConnected ts (.ok targets) openErr enableErr).2.cdpClient =
        some ((ts.cdpClient.getD emptyClient).connect first.id openErr enableErr).2 ∧
      (((ts.cdpClient.getD emptyClient).connect first.id openErr enableErr).1 = .ok →
        (ensureConnected ts (.ok targets) openErr enableErr).1 = .ok first.id)) := by
  constructor
  · intro hfilter
    unfold ensureConnected
    simp [h, hfilter]
  · intro first rest hfilter
    unfold ensureConnected
    simp only [h, Bool.false_eq_true, if_false, hfilter]
    cases hout : ((ts.cdpClient.getD emptyClient).connect first.id openErr enableErr).1 with
    | ok => simp [hout]
    | err e => simp [hout]

/-- C9 witness: instantiates the theorem at a fresh tool state; with
targets of kinds `webview, page, page` the first page target `p1` is
selected and connected, and with no page-kind target the no-targets error
is raised with the client untouched. -/
theorem ensureConnected_filters_pages_picks_first_witness :
    truthyConnected ((none : Option CDPClient).getD emptyClient) none = false ∧
      ((ensureConnected ⟨none, none⟩
          (.ok [⟨"w1", "webview", "W", "u0"⟩, ⟨"p1", "page", "P1", "u1"⟩,
                ⟨"p2", "page", "P2", "u2"⟩]) none none).2.connectedTargetId = some "p1" ∧
       (ensureConnected ⟨none, none⟩
          (.ok [⟨"w1", "webview", "W", "u0"⟩, ⟨"p1", "page", "P1", "u1"⟩,
                ⟨"p2", "page", "P2", "u2"⟩]) none none).1 = .ok "p1" ∧
       ensureConnected ⟨none, none⟩ (.ok [⟨"w1", "webview", "W", "u0"⟩]) none none =
         (.error (.jsError noTargetsMessage), ⟨some emptyClient, none⟩)) := by
  refine ⟨by decide, ?_, ?_, ?_⟩
  · exact (ensureConnected_filters_pages_picks_first ⟨none, none⟩
      [⟨"w1", "webview", "W", "u0"⟩, ⟨"p1", "page", "P1", "u1"⟩, ⟨"p2", "page", "P2", "u2"⟩]
      none none (by decide)).2 ⟨"p1", "page", "P1", "u1"⟩ [⟨"p2", "page", "P2", "u2"⟩]
      (by decide) |>.1
  · exact ((ensureConnected_filters_pages_picks_first ⟨none, none⟩
      [⟨"w1", "webview", "W", "u0"⟩, ⟨"p1", "page", "P1", "u1"⟩, ⟨"p2", "page", "P2", "u2"⟩]
      none none (by decide)).2 ⟨"p1", "page", "P1", "u1"⟩ [⟨"p2", "page", "P2", "u2"⟩]
      (by decide)).2.2 (by decide)
  · exact (ensureConnected_filters_pages_picks_first ⟨none, none⟩
      [⟨"w1", "webview", "W", "u0"⟩] none none (by decide)).1 (by decide)
